import Mathlib

/-!
Verification of the validation and dataset-building core of the
mumbl-language-system repository.

This file gives a shallow embedding of the format-guardian validators
(audio dataset, text JSONL, quality scores), the TTS manifest linter,
the dataset snapshot builder and the language-profile contract, and
proves theorems settling the specification claims about them.

Conventions of the embedding:
* Python floats are modelled as rationals; the decimal rendering used in
  human-readable messages is a fixed deterministic function, not the
  digit-exact repr of IEEE doubles (no claim depends on those digits).
* The filesystem seen by the snapshot builder is a store from file names
  (relative to the output directory) to file data; opening a file for
  writing truncates the target before any row is written, as in Python.
* Uncaught Python exceptions are modelled with `Except`; the error value
  names the exception (KeyError, TypeError, ValueError, SystemExit).
* Serialisation of JSON lines and of the dataset card to bytes is kept
  structural (`FileData` stores the written rows and statistics); it is a
  deterministic function of the written value, so value equality of file
  data coincides with byte equality of file contents.
-/

/-! Python exceptions that the embedded code can raise. -/

inductive PyErr where
  | keyError (key : String)
  | typeError (msg : String)
  | valueError (msg : String)
  | attributeError (msg : String)
  | systemExit (msg : String)
deriving Repr, DecidableEq

/-! Embedding of mumbl_format_guardians.common: ValidationIssue,
ValidationReport and the mutating helper `fail` (which sets `ok` to
false and appends one issue). -/

structure ValidationIssue where
  code : String
  message : String
  path : Option String
deriving Repr, DecidableEq

structure ValidationReport where
  ok : Bool
  checked : Nat
  errors : List ValidationIssue
deriving Repr, DecidableEq

def ValidationReport.fail (r : ValidationReport) (code : String) (message : String)
    (path : Option String) : ValidationReport :=
  { r with ok := false, errors := r.errors ++ [⟨code, message, path⟩] }

def ValidationReport.init : ValidationReport := { ok := true, checked := 0, errors := [] }

/-! Embedding of mumbl_dataset_builder.lints. -/

structure LintIssue where
  code : String
  msg : String
deriving Repr, DecidableEq

structure LintReport where
  ok : Bool
  issues : List LintIssue
deriving Repr, DecidableEq

/-- A manifest row, a Python dict with these conventional keys; a `none`
field models an absent key.  Values carry the types the pipeline uses
(`sample_rate` an integer, `duration_s` a float). -/
structure ManifestRow where
  wav : Option String
  sample_rate : Option Int
  duration_s : Option ℚ
  text : Option String
  phonemes : Option String
  speaker_id : Option String
deriving Repr, DecidableEq

/-- Python truthiness of `r.get(key)` for a string-valued key: false for a
missing key (None) and for the empty string. -/
def pyTruthyStr : Option String → Bool
  | none => false
  | some s => !s.isEmpty

/-- Rendering of `r.get("wav")` inside an f-string: None prints as "None". -/
def optStr : Option String → String
  | none => "None"
  | some s => s

/-- Deterministic stand-in for the Python repr of a float inside an
f-string.  No claim depends on the exact digits; determinism is all the
theorems use. -/
def fmtFloat (q : ℚ) : String :=
  if q.den = 1 then toString q.num ++ ".0"
  else toString q.num ++ "/" ++ toString q.den

/-- `1.5 <= dur <= 14.0` from the linter. -/
def durationInBounds (dur : ℚ) : Bool :=
  decide (mkRat 3 2 ≤ dur ∧ dur ≤ 14)

/-- One iteration of the linter loop body: the per-row duration check and
the per-row text/phonemes check, each appending an issue and clearing the
ok flag when violated. -/
def lintRowStep (acc : Bool × List LintIssue) (r : ManifestRow) : Bool × List LintIssue :=
  let dur := r.duration_s.getD 0
  let acc1 :=
    if durationInBounds dur then acc
    else (false, acc.2 ++ [⟨"DURATION", optStr r.wav ++ " duration " ++ fmtFloat dur ++ " out of bounds"⟩])
  if pyTruthyStr r.text || pyTruthyStr r.phonemes then acc1
  else (false, acc1.2 ++ [⟨"NO_TEXT_OR_PHONEMES", optStr r.wav ++ " missing text/phonemes"⟩])

/-- lint_tts_manifest: the set of distinct `r.get("sample_rate")` values
(None for missing keys) must not have more than one element, then the
per-row checks run for every row, none short-circuiting. -/
def lint_tts_manifest (rows : List ManifestRow) : LintReport :=
  let srs := (rows.map (fun r => r.sample_rate)).dedup
  let init : Bool × List LintIssue :=
    if srs.length > 1 then (false, [⟨"SAMPLE_RATE_MIX", "Multiple sample rates detected"⟩])
    else (true, [])
  let res := rows.foldl lintRowStep init
  { ok := res.1, issues := res.2 }

/-! Embedding of mumbl_dataset_builder.build_tts.  The output directory
is fixed, so the store is keyed by the file name relative to it.  The
`clips` directory created by os.makedirs carries no data and is not
modelled. -/

structure CardStats where
  clips : Nat
  sample_rate : List Int
  minutes : ℚ
deriving Repr, DecidableEq

inductive FileData where
  | textFile (content : String)
  | jsonlFile (rows : List ManifestRow)
  | cardFile (stats : CardStats)
deriving Repr, DecidableEq

def FS := String → Option FileData

def FS.write (fs : FS) (name : String) (d : FileData) : FS :=
  fun n => if n = name then some d else fs n

def emptyFS : FS := fun _ => none

/-- csv.writer quoting (QUOTE_MINIMAL) for delimiter `|`. -/
def csvNeedsQuote (s : String) : Bool :=
  s.data.any (fun c => c = '|' || c = '"' || c = '\n' || c = '\r')

def csvQuote (s : String) : String :=
  let doubled := String.mk (s.data.flatMap (fun c => if c = '"' then ['"', '"'] else [c]))
  "\"" ++ doubled ++ "\""

def csvField (s : String) : String := if csvNeedsQuote s then csvQuote s else s

/-- One csv.writer row with delimiter `|` and the default `\r\n`
line terminator. -/
def csvRowLine (fields : List String) : String :=
  String.intercalate "|" (fields.map csvField) ++ "\r\n"

/-- The loop of build_metadata_csv: content written so far, and the
KeyError raised by `r["wav"]` when a row lacks the key (rows already
written stay written, the loop stops). -/
def buildMetadataContent (use_phonemes : Bool) : List ManifestRow → String → String × Option PyErr
  | [], acc => (acc, none)
  | r :: rs, acc =>
    match r.wav with
    | none => (acc, some (PyErr.keyError "wav"))
    | some path =>
      let textfield := if use_phonemes then r.phonemes.getD "" else r.text.getD ""
      let spk := r.speaker_id.getD "spk_unknown"
      buildMetadataContent use_phonemes rs (acc ++ csvRowLine [path, textfield, spk])

/-- build_metadata_csv: opening metadata.csv for writing truncates it,
then rows are written one by one; a KeyError leaves the partial file. -/
def build_metadata_csv (fs : FS) (rows : List ManifestRow) (use_phonemes : Bool) :
    FS × Except PyErr String :=
  let res := buildMetadataContent use_phonemes rows ""
  let fs1 := fs.write "metadata.csv" (FileData.textFile res.1)
  match res.2 with
  | some e => (fs1, Except.error e)
  | none => (fs1, Except.ok "metadata.csv")

/-- write_manifest_jsonl: one json.dumps line per row, full overwrite. -/
def write_manifest_jsonl (fs : FS) (rows : List ManifestRow) : FS × String :=
  (fs.write "manifest.jsonl" (FileData.jsonlFile rows), "manifest.jsonl")

/-- write_dataset_card: json.dump of the stats dict, full overwrite. -/
def write_dataset_card (fs : FS) (stats : CardStats) : FS × String :=
  (fs.write "dataset_card.json" (FileData.cardFile stats), "dataset_card.json")

/-- The stats dict literal of build_tts_snapshot.  `r["sample_rate"]` and
`r["duration_s"]` are unguarded subscripts: a missing key raises KeyError,
the set comprehension (over sample rates) being evaluated first. -/
def statsOf (rows : List ManifestRow) : Except PyErr CardStats := do
  let srs ← rows.mapM (fun r =>
    match r.sample_rate with
    | none => Except.error (PyErr.keyError "sample_rate")
    | some v => Except.ok v)
  let durs ← rows.mapM (fun r =>
    match r.duration_s with
    | none => Except.error (PyErr.keyError "duration_s")
    | some d => Except.ok d)
  Except.ok { clips := rows.length, sample_rate := srs.dedup,
              minutes := (durs.foldl (fun a b => a + b) 0) / 60 }

structure SnapshotPaths where
  manifest : String
  metadata_csv : String
  dataset_card : String
deriving Repr, DecidableEq

/-- build_tts_snapshot: lint first; a failing lint raises SystemExit with
every collected issue in the message and nothing written.  Otherwise the
manifest, the metadata csv and the dataset card are written in that
order; an exception after a write leaves the files written so far. -/
def build_tts_snapshot (fs : FS) (rows : List ManifestRow) (use_phonemes : Bool) :
    FS × Except PyErr SnapshotPaths :=
  let lint := lint_tts_manifest rows
  if !lint.ok then
    let msgs := String.intercalate "\n" (lint.issues.map (fun i => "[" ++ i.code ++ "] " ++ i.msg))
    (fs, Except.error (PyErr.systemExit ("Dataset lints failed:\n" ++ msgs)))
  else
    let m := write_manifest_jsonl fs rows
    let c := build_metadata_csv m.1 rows use_phonemes
    match c.2 with
    | Except.error e => (c.1, Except.error e)
    | Except.ok cpath =>
      match statsOf rows with
      | Except.error e => (c.1, Except.error e)
      | Except.ok stats =>
        let d := write_dataset_card c.1 stats
        (d.1, Except.ok { manifest := m.2, metadata_csv := cpath, dataset_card := d.2 })

/-! Embedding of mumbl_format_guardians.validate_audio.  The directory of
WAV files is a map from the resolved path to the observable state of the
file: absent, unreadable (wave.open or the header read raises, caught by
the validator as WAV_READ), or readable PCM header metadata. -/

inductive WavStat where
  | absent
  | unreadable
  | meta (sr : Nat) (ch : Nat) (nframes : Nat) (sampwidth : Nat)
deriving Repr, DecidableEq

def TARGET_SR : List Nat := [22050, 24000]

def MIN_S : ℚ := mkRat 3 2

def MAX_S : ℚ := 14

/-- A row of the csv.DictReader: only the audio_file column is read by
the validator; a missing column gives None. -/
structure CsvRow where
  audio_file : Option String
deriving Repr, DecidableEq

/-- os.path.basename for POSIX paths: the component after the last slash
(the whole string when there is none). -/
def pyBasename (s : String) : String :=
  String.mk ((s.data.reverse.takeWhile (fun c => c ≠ '/')).reverse)

/-- os.path.join for POSIX paths, the two-argument form. -/
def pyJoin (a b : String) : String :=
  if b.data.head? = some '/' then b
  else if a = "" then b
  else if a.data.getLast? = some '/' then a ++ b
  else a ++ "/" ++ b

/-- The body of the validate_audio_dataset row loop at 1-based file line
`i` (the enumeration starts at 2, line 1 being the header). -/
def vaRow (clips_dir : String) (afs : String → WavStat) (i : Nat)
    (rep : ValidationReport) (row : CsvRow) : ValidationReport :=
  let lineP := some ("line " ++ toString i)
  if !pyTruthyStr row.audio_file then
    rep.fail "CSV_FIELD" "audio_file missing" lineP
  else
    let rel := (row.audio_file).getD ""
    let wav := pyJoin clips_dir (pyBasename rel)
    match afs wav with
    | WavStat.absent => rep.fail "MISSING_WAV" (wav ++ " not found") lineP
    | WavStat.unreadable => rep.fail "WAV_READ" (wav ++ ": read error") lineP
    | WavStat.meta sr ch nframes sw =>
      if sr = 0 then
        rep.fail "WAV_READ" (wav ++ ": division by zero") lineP
      else
        let dur : ℚ := mkRat nframes sr
        let rep1 := if sr ∈ TARGET_SR then rep
          else rep.fail "SR" (wav ++ ": sample rate " ++ toString sr ++ " not allowed") lineP
        let rep2 := if ch = 1 then rep1
          else rep1.fail "CHANNELS" (wav ++ ": channels " ++ toString ch ++ " != 1") lineP
        let rep3 := if MIN_S ≤ dur ∧ dur ≤ MAX_S then rep2
          else rep2.fail "DURATION" (wav ++ ": duration " ++ fmtFloat dur ++ "s outside bounds") lineP
        let rep4 := if sw = 2 then rep3
          else rep3.fail "BIT_DEPTH" (wav ++ ": must be 16-bit PCM (sampwidth=2)") lineP
        { rep4 with checked := rep4.checked + 1 }

def vaGo (clips_dir : String) (afs : String → WavStat) :
    Nat → List CsvRow → ValidationReport → ValidationReport
  | _, [], rep => rep
  | i, row :: rest, rep => vaGo clips_dir afs (i + 1) rest (vaRow clips_dir afs i rep row)

def validate_audio_dataset (clips_dir : String) (afs : String → WavStat)
    (rows : List CsvRow) : ValidationReport :=
  vaGo clips_dir afs 2 rows ValidationReport.init

/-! A JSON value, as json.loads yields it (objects keep their key
order; duplicate keys behave last-wins through jsonGet, matching dict
construction). -/

inductive JVal where
  | null
  | bool (b : Bool)
  | num (q : ℚ)
  | str (s : String)
  | arr (elems : List JVal)
  | obj (fields : List (String × JVal))

/-- dict.get(k): the value of the last binding of k, None when absent. -/
def jsonGet (fields : List (String × JVal)) (k : String) : Option JVal :=
  fields.foldl (fun acc kv => if kv.1 = k then some kv.2 else acc) none

/-- obj.get(k) as the Python code observes it: json.loads maps JSON null
to Python None, so a key bound to null yields None exactly like an
absent key. -/
def pyGet (fields : List (String × JVal)) (k : String) : Option JVal :=
  match jsonGet fields k with
  | some JVal.null => none
  | r => r

/-- An input line as the JSONL validators see it after strip() and
json.loads: blank once stripped, a JSON parse failure carrying the error
text, or the parsed value.  The byte-level JSON grammar is abstracted
into this parse outcome. -/
inductive SrcLine where
  | blank
  | badJson (err : String)
  | parsed (v : JVal)

def digitsToNat (l : List Char) : Nat :=
  l.foldl (fun n c => 10 * n + (c.toNat - Char.toNat '0')) 0

def allDigits (l : List Char) : Bool := l.all (fun c => c.isDigit)

/-- The plain decimal forms accepted by Python float() on a string
(optional sign, digits around an optional point, surrounding whitespace
stripped); exponent, inf and nan spellings are not modelled — no claim
exercises them. -/
def parsePyFloatString (s : String) : Option ℚ :=
  let t := s.trim
  let sign : ℚ := if t.startsWith "-" then -1 else 1
  let body := if t.startsWith "-" || t.startsWith "+" then t.drop 1 else t
  match body.splitOn "." with
  | [ip] =>
    if ip ≠ "" ∧ allDigits ip.data then some (sign * digitsToNat ip.data) else none
  | [ip, fp] =>
    if (ip ≠ "" ∨ fp ≠ "") ∧ allDigits ip.data ∧ allDigits fp.data then
      some (sign * ((digitsToNat ip.data : ℚ) + (digitsToNat fp.data : ℚ) / (10 ^ fp.length)))
    else none
  | _ => none

/-- Python float(v) on a JSON value: numbers pass through, booleans
coerce, numeric strings parse, anything else raises. -/
def pyFloat : JVal → Except PyErr ℚ
  | JVal.num q => Except.ok q
  | JVal.bool b => Except.ok (if b then 1 else 0)
  | JVal.str s =>
    match parsePyFloatString s with
    | some q => Except.ok q
    | none => Except.error (PyErr.valueError ("could not convert string to float: " ++ s))
  | JVal.null => Except.error (PyErr.typeError "float() argument must be a string or a real number, not NoneType")
  | JVal.arr _ => Except.error (PyErr.typeError "float() argument must be a string or a real number, not list")
  | JVal.obj _ => Except.error (PyErr.typeError "float() argument must be a string or a real number, not dict")

/-! Embedding of mumbl_format_guardians.validate_scores. -/

def FIELDS : List String :=
  ["clarity", "alignment", "diarization", "transcript_accuracy", "validity", "shape", "total"]

/-- The inner `for k in FIELDS` loop at line `i`: v = obj.get(k), which
is None both for an absent key and for a key bound to JSON null; the
`v is None` guard records SCORE_RANGE for those, as for an out-of-range
value; float(v) on a non-convertible value raises out of the
validator. -/
def vsFields (i : Nat) (fields : List (String × JVal)) :
    List String → ValidationReport → Except PyErr ValidationReport
  | [], rep => Except.ok rep
  | k :: ks, rep =>
    match pyGet fields k with
    | none =>
      vsFields i fields ks
        (rep.fail "SCORE_RANGE" (k ++ " must be 0..100") (some ("[" ++ toString i ++ "]." ++ k)))
    | some v =>
      match pyFloat v with
      | Except.error e => Except.error e
      | Except.ok x =>
        if (0 : ℚ) ≤ x ∧ x ≤ 100 then vsFields i fields ks rep
        else
          vsFields i fields ks
            (rep.fail "SCORE_RANGE" (k ++ " must be 0..100") (some ("[" ++ toString i ++ "]." ++ k)))

/-- The enumerate(lines, start=1) loop of validate_scores_json.  A parsed
line that is not a JSON object raises AttributeError at obj.get. -/
def validate_scores_go : Nat → List SrcLine → ValidationReport → Except PyErr ValidationReport
  | _, [], rep => Except.ok rep
  | i, l :: ls, rep =>
    match l with
    | SrcLine.blank => validate_scores_go (i + 1) ls rep
    | SrcLine.badJson e =>
      validate_scores_go (i + 1) ls
        (rep.fail "JSON" ("Line " ++ toString i ++ ": " ++ e) (some ("[" ++ toString i ++ "]")))
    | SrcLine.parsed (JVal.obj fields) =>
      match vsFields i fields FIELDS rep with
      | Except.error e => Except.error e
      | Except.ok r => validate_scores_go (i + 1) ls { r with checked := r.checked + 1 }
    | SrcLine.parsed _ =>
      Except.error (PyErr.attributeError "object has no attribute get")

def validate_scores_json (lines : List SrcLine) : Except PyErr ValidationReport :=
  validate_scores_go 1 lines ValidationReport.init

/-! Embedding of mumbl_data_contracts.segments (the parts validate_text
reads) and of pydantic model construction for them.  Pydantic numeric
coercions are not modelled: a required field must be present with a value
of the declared shape, which is what every claim exercises. -/

structure SourceRef where
  doc_id : String
  start : Int
  «end» : Int
deriving Repr, DecidableEq

structure Labels where
  is_dialogue : Bool
  topic : Option String
  register_type : Option String
  code_switch_spans : List (Int × Int)
deriving Repr, DecidableEq

structure TextSegment where
  text : String
  lang : String
  labels : Labels
  source_ref : SourceRef
deriving Repr, DecidableEq

def asStr : JVal → Option String
  | JVal.str s => some s
  | _ => none

def asInt : JVal → Option Int
  | JVal.num q => if q.den = 1 then some q.num else none
  | _ => none

def asBool : JVal → Option Bool
  | JVal.bool b => some b
  | _ => none

/-- An Optional[str] field: absent or null gives None, a string passes,
anything else fails construction. -/
def optStrField (fields : List (String × JVal)) (k : String) : Option (Option String) :=
  match jsonGet fields k with
  | none => some none
  | some JVal.null => some none
  | some (JVal.str s) => some (some s)
  | some _ => none

def asSpan : JVal → Option (Int × Int)
  | JVal.arr [a, b] => do
    let x ← asInt a
    let y ← asInt b
    some (x, y)
  | _ => none

def spansField (fields : List (String × JVal)) : Option (List (Int × Int)) :=
  match jsonGet fields "code_switch_spans" with
  | none => some []
  | some (JVal.arr es) => es.mapM asSpan
  | some _ => none

def parseSourceRef (v : JVal) : Option SourceRef :=
  match v with
  | JVal.obj fs => do
    let d ← (jsonGet fs "doc_id").bind asStr
    let s ← (jsonGet fs "start").bind asInt
    let e ← (jsonGet fs "end").bind asInt
    some { doc_id := d, start := s, «end» := e }
  | _ => none

def parseLabels (v : JVal) : Option Labels :=
  match v with
  | JVal.obj fs => do
    let d ← (jsonGet fs "is_dialogue").bind asBool
    let t ← optStrField fs "topic"
    let rt ← optStrField fs "register_type"
    let spans ← spansField fs
    some { is_dialogue := d, topic := t, register_type := rt, code_switch_spans := spans }
  | _ => none

/-- TextSegment(**obj): pydantic construction, which raises (any failure
is caught by validate_text_jsonl as a CONTRACT issue); extra keys are
ignored.  A non-object value fails at the ** unpacking, inside the same
try block. -/
def parseTextSegment (v : JVal) : Option TextSegment :=
  match v with
  | JVal.obj fs => do
    let t ← (jsonGet fs "text").bind asStr
    let lg ← (jsonGet fs "lang").bind asStr
    let lb ← (jsonGet fs "labels").bind parseLabels
    let sr ← (jsonGet fs "source_ref").bind parseSourceRef
    some { text := t, lang := lg, labels := lb, source_ref := sr }
  | _ => none

/-! Embedding of mumbl_format_guardians.validate_text. -/

/-- The loop body of validate_text_jsonl at 1-based line `i`.  The
REQUIRED_LABELS loop checks getattr(ts.labels, "is_dialogue", None);
is_dialogue is a required bool of Labels, so on a constructed segment the
getattr is never None and LABEL_MISSING cannot fire.  checked is
incremented after the try/except, so both a constructed segment and a
CONTRACT failure count. -/
def vtLine (i : Nat) (rep : ValidationReport) (l : SrcLine) : ValidationReport :=
  match l with
  | SrcLine.blank => rep
  | SrcLine.badJson e =>
    rep.fail "JSON_DECODE" ("Line " ++ toString i ++ ": " ++ e) (some ("[" ++ toString i ++ "]"))
  | SrcLine.parsed v =>
    let rep1 :=
      match parseTextSegment v with
      | none =>
        rep.fail "CONTRACT" ("Line " ++ toString i ++ " failed TextSegment schema") (some ("[" ++ toString i ++ "]"))
      | some ts =>
        if ts.source_ref.start ≥ ts.source_ref.«end» then
          rep.fail "GROUNDING_OFFSETS" "start >= end" (some ("[" ++ toString i ++ "].source_ref"))
        else rep
    { rep1 with checked := rep1.checked + 1 }

def validate_text_go : Nat → List SrcLine → ValidationReport → ValidationReport
  | _, [], rep => rep
  | i, l :: ls, rep => validate_text_go (i + 1) ls (vtLine i rep l)

def validate_text_jsonl (lines : List SrcLine) : ValidationReport :=
  validate_text_go 1 lines ValidationReport.init

/-! Embedding of mumbl_data_contracts.profiles.LanguageProfileV1.  Only
the fields read by its validators are carried; the remaining fields
(g2p rules, style and emotion tokens, tts defaults, curation targets,
tts strategy) are data the three validators never look at and impose no
constraint of their own on the profile object. -/

structure LanguageProfileV1 where
  language : String
  dialect : String
  script : String
  version : String
  phoneme_inventory : List String
  register_defaults : List (String × ℚ)
  fallback_chain : List String
deriving Repr, DecidableEq

/-- Maximal run of leading ASCII digits of a character list, with the
rest. -/
def takeDigs : List Char → List Char × List Char
  | [] => ([], [])
  | c :: cs =>
    if c.isDigit then
      let p := takeDigs cs
      (c :: p.1, p.2)
    else ([], c :: cs)

/-- re.match(r"^\d+\.\d+\.\d+$", v) is not None.  Python re anchors $ at
the end of the string or just before a trailing newline, so a version
ending in one newline also matches; \d is modelled as the ASCII digits
(the Unicode decimal digits Python would also accept are outside the
embedded character repertoire of these profiles). -/
def semverMatch (s : String) : Bool :=
  match takeDigs s.data with
  | (a, '.' :: r1) =>
    match takeDigs r1 with
    | (b, '.' :: r2) =>
      match takeDigs r2 with
      | (c, []) => !a.isEmpty && !b.isEmpty && !c.isEmpty
      | (c, ['\n']) => !a.isEmpty && !b.isEmpty && !c.isEmpty
      | _ => false
    | _ => false
  | _ => false

/-- sum(v.values()) over register_defaults. -/
def sumWeights (l : List (String × ℚ)) : ℚ :=
  (l.map (fun kv => kv.2)).foldl (fun a b => a + b) 0

/-- Pydantic validation of LanguageProfileV1: the field validators run in
field order (version, then register_defaults), then the model validator
(fallback chain acyclicity); the first failing assert raises. -/
def validateLanguageProfileV1 (p : LanguageProfileV1) : Except String LanguageProfileV1 :=
  if !semverMatch p.version then
    Except.error "version must be semver"
  else if !(decide (|sumWeights p.register_defaults - 1| < mkRat 1 1000000)) then
    Except.error "register_defaults must sum to 1.0"
  else if p.dialect ∈ p.fallback_chain then
    Except.error "fallback_chain cannot include self"
  else
    Except.ok p

/-! Specification-side definitions used by the theorems: per-record issue
lists, counters, the write list of the snapshot builder, the semver
format, and the concrete inputs named by the claims. -/

/-- The lint issue a row with an out-of-bounds duration contributes. -/
def lintDurationIssue (r : ManifestRow) : LintIssue :=
  ⟨"DURATION", optStr r.wav ++ " duration " ++ fmtFloat (r.duration_s.getD 0) ++ " out of bounds"⟩

/-- The lint issue a row with neither text nor phonemes contributes. -/
def lintMissingTextIssue (r : ManifestRow) : LintIssue :=
  ⟨"NO_TEXT_OR_PHONEMES", optStr r.wav ++ " missing text/phonemes"⟩

def sampleRateMixIssue : LintIssue := ⟨"SAMPLE_RATE_MIX", "Multiple sample rates detected"⟩

/-- The issues one manifest row contributes to the lint report. -/
def lintRowIssues (r : ManifestRow) : List LintIssue :=
  (if durationInBounds (r.duration_s.getD 0) then [] else [lintDurationIssue r]) ++
  (if pyTruthyStr r.text || pyTruthyStr r.phonemes then [] else [lintMissingTextIssue r])

/-- The report mentions an issue with the given code. -/
def hasLintCode (rep : LintReport) (code : String) : Prop :=
  ∃ i ∈ rep.issues, i.code = code

/-- The line of the abort message devoted to one lint issue. -/
def fmtLintIssue (i : LintIssue) : String := "[" ++ i.code ++ "] " ++ i.msg

/-- The two-row example manifest of the specification. -/
def exampleManifestRows : List ManifestRow :=
  [{ wav := some "clips/a.wav", sample_rate := some 24000, duration_s := some 2,
     text := some "hi", phonemes := none, speaker_id := none },
   { wav := some "clips/b.wav", sample_rate := some 24000, duration_s := some 3,
     text := some "there", phonemes := none, speaker_id := none }]

/-- The issues one CSV row contributes to the audio validation report at
file line `i` (mirrors the branch structure of vaRow). -/
def vaRowIssues (clips_dir : String) (afs : String → WavStat) (i : Nat)
    (row : CsvRow) : List ValidationIssue :=
  let lineP := some ("line " ++ toString i)
  if !pyTruthyStr row.audio_file then [⟨"CSV_FIELD", "audio_file missing", lineP⟩]
  else
    let rel := (row.audio_file).getD ""
    let wav := pyJoin clips_dir (pyBasename rel)
    match afs wav with
    | WavStat.absent => [⟨"MISSING_WAV", wav ++ " not found", lineP⟩]
    | WavStat.unreadable => [⟨"WAV_READ", wav ++ ": read error", lineP⟩]
    | WavStat.meta sr ch nframes sw =>
      if sr = 0 then [⟨"WAV_READ", wav ++ ": division by zero", lineP⟩]
      else
        let dur : ℚ := mkRat nframes sr
        (if sr ∈ TARGET_SR then [] else [⟨"SR", wav ++ ": sample rate " ++ toString sr ++ " not allowed", lineP⟩]) ++
        (if ch = 1 then [] else [⟨"CHANNELS", wav ++ ": channels " ++ toString ch ++ " != 1", lineP⟩]) ++
        (if MIN_S ≤ dur ∧ dur ≤ MAX_S then [] else [⟨"DURATION", wav ++ ": duration " ++ fmtFloat dur ++ "s outside bounds", lineP⟩]) ++
        (if sw = 2 then [] else [⟨"BIT_DEPTH", wav ++ ": must be 16-bit PCM (sampwidth=2)", lineP⟩])

/-- A CSV row passes the structural phase of the audio validator: the
audio_file field is present and truthy, the resolved WAV exists and its
header is readable.  These are the rows whose loop iteration reaches the
final checked increment. -/
def vaRowStructOk (clips_dir : String) (afs : String → WavStat) (row : CsvRow) : Bool :=
  if !pyTruthyStr row.audio_file then false
  else
    match afs (pyJoin clips_dir (pyBasename ((row.audio_file).getD ""))) with
    | WavStat.meta sr _ _ _ => !(sr = 0 : Bool)
    | _ => false

/-- All issues of an audio validation run, rows numbered from `i`. -/
def vaIssuesFrom (clips_dir : String) (afs : String → WavStat) :
    Nat → List CsvRow → List ValidationIssue
  | _, [] => []
  | i, row :: rest => vaRowIssues clips_dir afs i row ++ vaIssuesFrom clips_dir afs (i + 1) rest

/-- A line the JSONL validators treat as structurally parseable. -/
def isParsedLine : SrcLine → Bool
  | SrcLine.parsed _ => true
  | _ => false

/-- The issues one line contributes to the text validation report. -/
def vtLineIssues (i : Nat) (l : SrcLine) : List ValidationIssue :=
  match l with
  | SrcLine.blank => []
  | SrcLine.badJson e =>
    [⟨"JSON_DECODE", "Line " ++ toString i ++ ": " ++ e, some ("[" ++ toString i ++ "]")⟩]
  | SrcLine.parsed v =>
    match parseTextSegment v with
    | none => [⟨"CONTRACT", "Line " ++ toString i ++ " failed TextSegment schema", some ("[" ++ toString i ++ "]")⟩]
    | some ts =>
      if ts.source_ref.start ≥ ts.source_ref.«end» then
        [⟨"GROUNDING_OFFSETS", "start >= end", some ("[" ++ toString i ++ "].source_ref")⟩]
      else []

/-- All issues of a text validation run, lines numbered from `i`. -/
def vtIssuesFrom : Nat → List SrcLine → List ValidationIssue
  | _, [] => []
  | i, l :: ls => vtLineIssues i l ++ vtIssuesFrom (i + 1) ls

/-- The text-segment JSON line of the specification example, with
source_ref.start = 5 and source_ref.end = 2. -/
def groundingLine : SrcLine :=
  SrcLine.parsed (JVal.obj
    [("text", JVal.str "Hi"), ("lang", JVal.str "en"),
     ("labels", JVal.obj [("is_dialogue", JVal.bool true)]),
     ("source_ref", JVal.obj [("doc_id", JVal.str "SRC"), ("start", JVal.num 5), ("end", JVal.num 2)])])

/-- A score record whose clarity value is a JSON array: float([]) raises
TypeError out of validate_scores_json. -/
def badScoreLines : List SrcLine :=
  [SrcLine.parsed (JVal.obj [("clarity", JVal.arr [])])]

/-- A score record whose clarity is JSON null: dict.get returns None for
it, so the validator records SCORE_RANGE for every field (clarity null,
the six others absent) and still returns a report. -/
def nullClarityLines : List SrcLine :=
  [SrcLine.parsed (JVal.obj [("clarity", JVal.null)])]

/-- The report the scores validator returns on nullClarityLines. -/
def nullClarityReport : ValidationReport :=
  { ok := false, checked := 1,
    errors :=
      [⟨"SCORE_RANGE", "clarity must be 0..100", some "[1].clarity"⟩,
       ⟨"SCORE_RANGE", "alignment must be 0..100", some "[1].alignment"⟩,
       ⟨"SCORE_RANGE", "diarization must be 0..100", some "[1].diarization"⟩,
       ⟨"SCORE_RANGE", "transcript_accuracy must be 0..100", some "[1].transcript_accuracy"⟩,
       ⟨"SCORE_RANGE", "validity must be 0..100", some "[1].validity"⟩,
       ⟨"SCORE_RANGE", "shape must be 0..100", some "[1].shape"⟩,
       ⟨"SCORE_RANGE", "total must be 0..100", some "[1].total"⟩] }

/-- Apply a list of (file name, data) writes left to right. -/
def applyWrites (ws : List (String × FileData)) (fs : FS) : FS :=
  ws.foldl (fun f w => f.write w.1 w.2) fs

/-- The last value written to `n` by the write list, if any. -/
def lastVal : List (String × FileData) → String → Option FileData
  | [], _ => none
  | w :: ws, n =>
    match lastVal ws n with
    | some d => some d
    | none => if w.1 = n then some w.2 else none

/-- The writes build_tts_snapshot performs, in order, as a function of
its input alone (the builder never reads the store). -/
def buildWrites (rows : List ManifestRow) (up : Bool) : List (String × FileData) :=
  let lint := lint_tts_manifest rows
  if !lint.ok then []
  else
    let base := [("manifest.jsonl", FileData.jsonlFile rows),
                 ("metadata.csv", FileData.textFile (buildMetadataContent up rows "").1)]
    match (buildMetadataContent up rows "").2 with
    | some _ => base
    | none =>
      match statsOf rows with
      | Except.error _ => base
      | Except.ok st => base ++ [("dataset_card.json", FileData.cardFile st)]

/-- The outcome of build_tts_snapshot as a function of its input alone. -/
def buildOutcome (rows : List ManifestRow) (up : Bool) : Except PyErr SnapshotPaths :=
  let lint := lint_tts_manifest rows
  if !lint.ok then
    Except.error (PyErr.systemExit
      ("Dataset lints failed:\n" ++ String.intercalate "\n" (lint.issues.map fmtLintIssue)))
  else
    match (buildMetadataContent up rows "").2 with
    | some e => Except.error e
    | none =>
      match statsOf rows with
      | Except.error e => Except.error e
      | Except.ok _ =>
        Except.ok { manifest := "manifest.jsonl", metadata_csv := "metadata.csv",
                    dataset_card := "dataset_card.json" }

/-- A manifest row the linter rejects (duration 0.0 is out of bounds). -/
def badDurationRows : List ManifestRow :=
  [{ wav := some "clips/a.wav", sample_rate := some 24000, duration_s := some 0,
     text := some "hi", phonemes := none, speaker_id := none }]

/-- A manifest row that passes the lint but has no "wav" key. -/
def rowsNoWav : List ManifestRow :=
  [{ wav := none, sample_rate := some 24000, duration_s := some 2,
     text := some "hi", phonemes := none, speaker_id := none }]

/-- A manifest row that passes the lint but has no "sample_rate" key. -/
def rowsNoSampleRate : List ManifestRow :=
  [{ wav := some "clips/a.wav", sample_rate := none, duration_s := some 2,
     text := some "hi", phonemes := none, speaker_id := none }]

/-- A nonempty run of ASCII digits. -/
def DigitRun (l : List Char) : Prop :=
  l ≠ [] ∧ ∀ c ∈ l, c.isDigit = true

/-- The semantic-version shape of the specification: three nonempty digit
runs separated by dots, nothing else. -/
def SemverFormat (s : String) : Prop :=
  ∃ a b c : List Char, DigitRun a ∧ DigitRun b ∧ DigitRun c ∧
    s.data = a ++ '.' :: (b ++ '.' :: c)

/-- The same shape followed by one trailing newline, which the Python
dollar anchor also accepts. -/
def SemverFormatNewline (s : String) : Prop :=
  ∃ a b c : List Char, DigitRun a ∧ DigitRun b ∧ DigitRun c ∧
    s.data = a ++ '.' :: (b ++ '.' :: (c ++ ['\n']))

/-- A profile whose version string carries a trailing newline. -/
def newlineVersionProfile : LanguageProfileV1 :=
  { language := "xx", dialect := "north", script := "latin", version := "1.2.3\n",
    phoneme_inventory := ["a"], register_defaults := [("formal", mkRat 3 10), ("informal", mkRat 7 10)],
    fallback_chain := [] }

/-! Lemmas about the manifest linter. -/

theorem lintRowStep_eq (acc : Bool × List LintIssue) (r : ManifestRow) :
    lintRowStep acc r = (acc.1 && (lintRowIssues r).isEmpty, acc.2 ++ lintRowIssues r) := by
  unfold lintRowStep lintRowIssues
  by_cases h1 : durationInBounds (r.duration_s.getD 0) = true <;>
    by_cases h2 : (pyTruthyStr r.text || pyTruthyStr r.phonemes) = true <;>
      simp [h1, h2, lintDurationIssue, lintMissingTextIssue, List.append_assoc]

theorem lint_foldl_eq (rows : List ManifestRow) (acc : Bool × List LintIssue) :
    rows.foldl lintRowStep acc
      = (acc.1 && rows.all (fun r => (lintRowIssues r).isEmpty),
         acc.2 ++ rows.flatMap lintRowIssues) := by
  induction rows generalizing acc with
  | nil => simp
  | cons r rs ih =>
    simp [List.foldl_cons, lintRowStep_eq, ih, Bool.and_assoc, List.append_assoc]

theorem lint_tts_manifest_eq (rows : List ManifestRow) :
    lint_tts_manifest rows =
      { ok := (if (rows.map (fun r => r.sample_rate)).dedup.length > 1 then false else true)
                && rows.all (fun r => (lintRowIssues r).isEmpty),
        issues := (if (rows.map (fun r => r.sample_rate)).dedup.length > 1
                    then [sampleRateMixIssue] else []) ++ rows.flatMap lintRowIssues } := by
  unfold lint_tts_manifest
  by_cases h : (rows.map (fun r => r.sample_rate)).dedup.length > 1 <;>
    simp [h, lint_foldl_eq, sampleRateMixIssue]

theorem lintRowIssues_codes (r : ManifestRow) :
    ∀ i ∈ lintRowIssues r, i.code = "DURATION" ∨ i.code = "NO_TEXT_OR_PHONEMES" := by
  intro i hi
  unfold lintRowIssues at hi
  rcases List.mem_append.mp hi with h | h <;> split at h <;>
    simp_all [lintDurationIssue, lintMissingTextIssue]

theorem one_lt_dedup_iff (l : List (Option Int)) :
    1 < l.dedup.length ↔ ∃ a ∈ l, ∃ b ∈ l, a ≠ b := by
  rw [← List.card_toFinset, Finset.one_lt_card]
  simp [List.mem_toFinset]

theorem flatMap_if_empty_eq_filter_map {α β : Type} (l : List α) (c : α → Bool) (g : α → β) :
    l.flatMap (fun a => if c a then [] else [g a]) = (l.filter (fun a => !c a)).map g := by
  induction l with
  | nil => rfl
  | cons x xs ih => by_cases h : c x = true <;> simp [List.filter_cons, h, ih]

theorem filter_flatMap_eq {α β : Type} (l : List α) (f : α → List β) (p : β → Bool) :
    (l.flatMap f).filter p = l.flatMap (fun a => (f a).filter p) := by
  induction l with
  | nil => rfl
  | cons x xs ih => simp [List.filter_append, ih]

theorem lintRowIssues_filter_dur (r : ManifestRow) :
    (lintRowIssues r).filter (fun i => i.code == "DURATION")
      = if durationInBounds (r.duration_s.getD 0) then [] else [lintDurationIssue r] := by
  unfold lintRowIssues
  by_cases h1 : durationInBounds (r.duration_s.getD 0) = true <;>
    by_cases h2 : (pyTruthyStr r.text || pyTruthyStr r.phonemes) = true <;>
      simp [h1, h2, lintDurationIssue, lintMissingTextIssue, List.filter]

theorem lintRowIssues_filter_text (r : ManifestRow) :
    (lintRowIssues r).filter (fun i => i.code == "NO_TEXT_OR_PHONEMES")
      = if pyTruthyStr r.text || pyTruthyStr r.phonemes then [] else [lintMissingTextIssue r] := by
  unfold lintRowIssues
  by_cases h1 : durationInBounds (r.duration_s.getD 0) = true <;>
    by_cases h2 : (pyTruthyStr r.text || pyTruthyStr r.phonemes) = true <;>
      simp [h1, h2, lintDurationIssue, lintMissingTextIssue, List.filter]

/-- C2 counterexample: on the empty row list the set of distinct sample
rates has cardinality 0, not 1, yet lint_tts_manifest reports no
SAMPLE_RATE_MIX issue — the claimed "exactly when the cardinality is not
1" fails at this input. -/
theorem lint_sample_rate_mix_iff_fails_on_empty :
    ¬ (hasLintCode (lint_tts_manifest []) "SAMPLE_RATE_MIX" ↔
        (List.map (fun r => r.sample_rate) ([] : List ManifestRow)).dedup.length ≠ 1) := by
  have h : (lint_tts_manifest []).issues = [] := by rfl
  simp [hasLintCode, h]

/-- C2 (amended): lint_tts_manifest reports SAMPLE_RATE_MIX exactly when
two rows carry distinct sample_rate values (cardinality of the distinct
set greater than 1); a DURATION issue exactly for the rows whose
duration lies outside [1.5, 14.0]; a NO_TEXT_OR_PHONEMES issue exactly
for the rows with neither text nor phonemes; no check suppresses any
other; and the two-row example manifest lints clean. -/
theorem lint_tts_manifest_checks (rows : List ManifestRow) :
    (hasLintCode (lint_tts_manifest rows) "SAMPLE_RATE_MIX" ↔
      ∃ r1 ∈ rows, ∃ r2 ∈ rows, r1.sample_rate ≠ r2.sample_rate) ∧
    (lint_tts_manifest rows).issues.filter (fun i => i.code == "DURATION")
      = (rows.filter (fun r =>
          !decide ((3/2 : ℚ) ≤ r.duration_s.getD 0 ∧ r.duration_s.getD 0 ≤ 14))).map lintDurationIssue ∧
    (lint_tts_manifest rows).issues.filter (fun i => i.code == "NO_TEXT_OR_PHONEMES")
      = (rows.filter (fun r => !(pyTruthyStr r.text || pyTruthyStr r.phonemes))).map lintMissingTextIssue ∧
    lint_tts_manifest exampleManifestRows = { ok := true, issues := [] } := by
  refine ⟨?_, ?_, ?_, by decide⟩
  · rw [lint_tts_manifest_eq]
    unfold hasLintCode
    simp only [List.mem_append]
    constructor
    · rintro ⟨i, hi | hi, hcode⟩
      · by_cases h : 1 < (rows.map (fun r => r.sample_rate)).dedup.length
        · rcases (one_lt_dedup_iff _).mp h with ⟨a, ha, b, hb, hab⟩
          rcases List.mem_map.mp ha with ⟨r1, hr1, rfl⟩
          rcases List.mem_map.mp hb with ⟨r2, hr2, rfl⟩
          exact ⟨r1, hr1, r2, hr2, hab⟩
        · simp [h] at hi
      · rcases List.mem_flatMap.mp hi with ⟨r, _, hir⟩
        rcases lintRowIssues_codes r i hir with h | h <;> rw [h] at hcode <;>
          exact absurd hcode (by decide)
    · rintro ⟨r1, h1, r2, h2, hne⟩
      have hlt : 1 < (rows.map (fun r => r.sample_rate)).dedup.length :=
        (one_lt_dedup_iff _).mpr
          ⟨r1.sample_rate, List.mem_map_of_mem _ h1, r2.sample_rate, List.mem_map_of_mem _ h2, hne⟩
      exact ⟨sampleRateMixIssue, Or.inl (by simp [hlt]), rfl⟩
  · rw [lint_tts_manifest_eq]
    simp only [List.filter_append]
    have h1 : ∀ cond : Prop, ∀ inst : Decidable cond,
        (if cond then [sampleRateMixIssue] else []).filter (fun i => i.code == "DURATION") = [] := by
      intro cond inst
      split <;> rfl
    rw [h1, filter_flatMap_eq]
    have h2 : (fun r => (lintRowIssues r).filter (fun i => i.code == "DURATION"))
        = fun r => if durationInBounds (r.duration_s.getD 0) then []
                   else [lintDurationIssue r] := by
      funext r
      exact lintRowIssues_filter_dur r
    rw [h2]
    rw [flatMap_if_empty_eq_filter_map rows (fun r => durationInBounds (r.duration_s.getD 0)) lintDurationIssue]
    have hfun : (fun r : ManifestRow =>
        !decide ((3/2 : ℚ) ≤ r.duration_s.getD 0 ∧ r.duration_s.getD 0 ≤ 14))
        = fun r => !durationInBounds (r.duration_s.getD 0) := by
      funext r
      unfold durationInBounds
      rw [show mkRat 3 2 = (3/2 : ℚ) from by norm_num [Rat.mkRat_eq_div]]
    rw [hfun]
    simp
  · rw [lint_tts_manifest_eq]
    simp only [List.filter_append]
    have h1 : ∀ cond : Prop, ∀ inst : Decidable cond,
        (if cond then [sampleRateMixIssue] else []).filter (fun i => i.code == "NO_TEXT_OR_PHONEMES") = [] := by
      intro cond inst
      split <;> rfl
    rw [h1, filter_flatMap_eq]
    have h2 : (fun r => (lintRowIssues r).filter (fun i => i.code == "NO_TEXT_OR_PHONEMES"))
        = fun r => if pyTruthyStr r.text || pyTruthyStr r.phonemes then []
                   else [lintMissingTextIssue r] := by
      funext r
      exact lintRowIssues_filter_text r
    rw [h2]
    exact flatMap_if_empty_eq_filter_map rows (fun r => pyTruthyStr r.text || pyTruthyStr r.phonemes) lintMissingTextIssue

/-! Lemmas about the audio dataset validator. -/

theorem vaRow_eq (cd : String) (afs : String → WavStat) (i : Nat)
    (rep : ValidationReport) (row : CsvRow) :
    vaRow cd afs i rep row =
      { ok := rep.ok && (vaRowIssues cd afs i row).isEmpty,
        checked := rep.checked + (if vaRowStructOk cd afs row then 1 else 0),
        errors := rep.errors ++ vaRowIssues cd afs i row } := by
  unfold vaRow vaRowIssues vaRowStructOk
  by_cases hp : (!pyTruthyStr row.audio_file) = true
  · simp [hp, ValidationReport.fail]
  · simp only [hp, Bool.false_eq_true, if_false, if_neg]
    cases hw : afs (pyJoin cd (pyBasename ((row.audio_file).getD ""))) with
    | absent => simp [hp, hw, ValidationReport.fail]
    | unreadable => simp [hp, hw, ValidationReport.fail]
    | meta sr ch nframes sw =>
      by_cases hsr : sr = 0
      · simp [hp, hw, hsr, ValidationReport.fail]
      · by_cases c1 : sr ∈ TARGET_SR <;> by_cases c2 : ch = 1 <;>
          by_cases c3 : MIN_S ≤ mkRat nframes sr ∧ mkRat nframes sr ≤ MAX_S <;>
            by_cases c4 : sw = 2 <;>
              simp [hp, hw, hsr, c1, c2, c3, c4, ValidationReport.fail, List.append_assoc]

theorem isEmpty_append_eq {α : Type} (a b : List α) :
    (a ++ b).isEmpty = (a.isEmpty && b.isEmpty) := by
  cases a <;> simp

theorem vaGo_eq (cd : String) (afs : String → WavStat) (rows : List CsvRow) :
    ∀ (i : Nat) (rep : ValidationReport),
    vaGo cd afs i rows rep =
      { ok := rep.ok && (vaIssuesFrom cd afs i rows).isEmpty,
        checked := rep.checked + (rows.filter (vaRowStructOk cd afs)).length,
        errors := rep.errors ++ vaIssuesFrom cd afs i rows } := by
  induction rows with
  | nil => intro i rep; simp [vaGo, vaIssuesFrom]
  | cons row rest ih =>
    intro i rep
    by_cases hr : vaRowStructOk cd afs row = true <;>
      simp [vaGo, vaRow_eq, ih, vaIssuesFrom, List.filter_cons, hr,
            Bool.and_assoc, List.append_assoc, isEmpty_append_eq] <;>
        omega

/-- C3 counterexample: a CSV row whose WAV exists and is readable but has
sample rate 16000 records an SR issue and still increments checked, so
checked is not incremented "iff the row produces zero issues". -/
theorem validate_audio_checked_not_iff_clean :
    ¬ (((validate_audio_dataset "clips"
          (fun p => if p = "clips/a.wav" then WavStat.meta 16000 1 48000 2 else WavStat.absent)
          [{ audio_file := some "a.wav" }]).errors = []) ↔
       ((validate_audio_dataset "clips"
          (fun p => if p = "clips/a.wav" then WavStat.meta 16000 1 48000 2 else WavStat.absent)
          [{ audio_file := some "a.wav" }]).checked = 1)) := by
  decide

/-- C3 (amended): checked counts exactly the rows that pass the
structural phase (truthy audio_file, WAV present with a readable
header); the error list is the concatenation of the per-row issue lists;
and a row with a missing or empty audio_file contributes exactly one
CSV_FIELD issue and is not counted in checked.  Rows failing only the
SR/CHANNELS/DURATION/BIT_DEPTH constraint checks are still counted. -/
theorem validate_audio_checked_characterization (cd : String) (afs : String → WavStat)
    (rows : List CsvRow) :
    (validate_audio_dataset cd afs rows).checked = (rows.filter (vaRowStructOk cd afs)).length ∧
    (validate_audio_dataset cd afs rows).errors = vaIssuesFrom cd afs 2 rows ∧
    (∀ (i : Nat) (row : CsvRow), pyTruthyStr row.audio_file = false →
      vaRowIssues cd afs i row
        = [⟨"CSV_FIELD", "audio_file missing", some ("line " ++ toString i)⟩] ∧
      vaRowStructOk cd afs row = false) := by
  refine ⟨?_, ?_, ?_⟩
  · simp [validate_audio_dataset, vaGo_eq, ValidationReport.init]
  · simp [validate_audio_dataset, vaGo_eq, ValidationReport.init]
  · intro i row h
    constructor
    · unfold vaRowIssues
      simp [h]
    · unfold vaRowStructOk
      simp [h]

theorem validate_audio_checked_characterization_witness :
    vaRowIssues "clips" (fun _ => WavStat.absent) 2 { audio_file := none }
      = [⟨"CSV_FIELD", "audio_file missing", some ("line " ++ toString (2 : Nat))⟩] ∧
    vaRowStructOk "clips" (fun _ => WavStat.absent) { audio_file := none } = false :=
  (validate_audio_checked_characterization "clips" (fun _ => WavStat.absent) []).2.2 2
    { audio_file := none } (by decide)

/-! Lemmas about the text JSONL validator. -/

theorem vtLine_eq (i : Nat) (rep : ValidationReport) (l : SrcLine) :
    vtLine i rep l =
      { ok := rep.ok && (vtLineIssues i l).isEmpty,
        checked := rep.checked + (if isParsedLine l then 1 else 0),
        errors := rep.errors ++ vtLineIssues i l } := by
  cases l with
  | blank => simp [vtLine, vtLineIssues, isParsedLine]
  | badJson e => simp [vtLine, vtLineIssues, isParsedLine, ValidationReport.fail]
  | parsed v =>
    unfold vtLine vtLineIssues
    cases hp : parseTextSegment v with
    | none => simp [hp, isParsedLine, ValidationReport.fail]
    | some ts =>
      by_cases hg : ts.source_ref.start ≥ ts.source_ref.«end» <;>
        simp [hp, hg, isParsedLine, ValidationReport.fail]

theorem vtGo_eq (lines : List SrcLine) :
    ∀ (i : Nat) (rep : ValidationReport),
    validate_text_go i lines rep =
      { ok := rep.ok && (vtIssuesFrom i lines).isEmpty,
        checked := rep.checked + (lines.filter isParsedLine).length,
        errors := rep.errors ++ vtIssuesFrom i lines } := by
  induction lines with
  | nil => intro i rep; simp [validate_text_go, vtIssuesFrom]
  | cons l ls ih =>
    intro i rep
    by_cases hl : isParsedLine l = true <;>
      simp [validate_text_go, vtLine_eq, ih, vtIssuesFrom, List.filter_cons, hl,
            Bool.and_assoc, List.append_assoc, isEmpty_append_eq] <;>
        omega

/-- C5: a non-blank line that fails JSON parsing contributes exactly one
JSON_DECODE issue and is not counted in checked; checked counts exactly
the structurally parseable lines, so a parseable but semantically
invalid line still increments it while its issues are recorded; the
error list is the concatenation of the per-line issue lists; and the
example segment with source_ref.start = 5, end = 2 records a
GROUNDING_OFFSETS issue at line 1 and is still counted. -/
theorem validate_text_jsonl_line_accounting (lines : List SrcLine) :
    (validate_text_jsonl lines).checked = (lines.filter isParsedLine).length ∧
    (validate_text_jsonl lines).errors = vtIssuesFrom 1 lines ∧
    (∀ (i : Nat) (e : String),
      vtLineIssues i (SrcLine.badJson e)
        = [⟨"JSON_DECODE", "Line " ++ toString i ++ ": " ++ e, some ("[" ++ toString i ++ "]")⟩] ∧
      isParsedLine (SrcLine.badJson e) = false) ∧
    (∀ v : JVal, isParsedLine (SrcLine.parsed v) = true) ∧
    validate_text_jsonl [groundingLine]
      = { ok := false, checked := 1,
          errors := [⟨"GROUNDING_OFFSETS", "start >= end", some "[1].source_ref"⟩] } := by
  refine ⟨?_, ?_, ?_, ?_, by decide⟩
  · simp [validate_text_jsonl, vtGo_eq, ValidationReport.init]
  · simp [validate_text_jsonl, vtGo_eq, ValidationReport.init]
  · intro i e
    exact ⟨rfl, rfl⟩
  · intro v
    rfl

/-! The ok-iff-no-issues invariant of the reports. -/

theorem fail_inv (r : ValidationReport) (c m : String) (p : Option String) :
    ((r.fail c m p).ok = true ↔ (r.fail c m p).errors = []) := by
  simp [ValidationReport.fail]

theorem vsFields_inv (i : Nat) (fields : List (String × JVal)) (ks : List String) :
    ∀ (rep r' : ValidationReport), (rep.ok = true ↔ rep.errors = []) →
      vsFields i fields ks rep = Except.ok r' → (r'.ok = true ↔ r'.errors = []) := by
  induction ks with
  | nil =>
    intro rep r' h heq
    unfold vsFields at heq
    cases heq
    exact h
  | cons k ks ih =>
    intro rep r' h heq
    unfold vsFields at heq
    split at heq
    · exact ih _ _ (fail_inv rep _ _ _) heq
    · split at heq
      · cases heq
      · split at heq
        · exact ih _ _ h heq
        · exact ih _ _ (fail_inv rep _ _ _) heq

theorem validate_scores_go_inv (ls : List SrcLine) :
    ∀ (i : Nat) (rep r' : ValidationReport), (rep.ok = true ↔ rep.errors = []) →
      validate_scores_go i ls rep = Except.ok r' → (r'.ok = true ↔ r'.errors = []) := by
  induction ls with
  | nil =>
    intro i rep r' h heq
    unfold validate_scores_go at heq
    cases heq
    exact h
  | cons l ls ih =>
    intro i rep r' h heq
    unfold validate_scores_go at heq
    split at heq
    · exact ih _ _ _ h heq
    · exact ih _ _ _ (fail_inv rep _ _ _) heq
    · rename_i fields
      split at heq
      · cases heq
      · rename_i r hm
        have hr := vsFields_inv i fields FIELDS rep r h hm
        exact ih _ _ _ (by simpa using hr) heq
    · cases heq

/-- C6: for every report any of the four validators returns (the manifest
linter, the audio dataset validator, the text JSONL validator, and the
scores validator whenever it returns instead of raising), ok is false
exactly when the issue list is non-empty. -/
theorem reports_ok_iff_no_issues :
    (∀ rows : List ManifestRow,
      ((lint_tts_manifest rows).ok = true ↔ (lint_tts_manifest rows).issues = [])) ∧
    (∀ (cd : String) (afs : String → WavStat) (rows : List CsvRow),
      ((validate_audio_dataset cd afs rows).ok = true ↔
        (validate_audio_dataset cd afs rows).errors = [])) ∧
    (∀ lines : List SrcLine,
      ((validate_text_jsonl lines).ok = true ↔ (validate_text_jsonl lines).errors = [])) ∧
    (∀ (lines : List SrcLine) (rep : ValidationReport),
      validate_scores_json lines = Except.ok rep → (rep.ok = true ↔ rep.errors = [])) := by
  refine ⟨?_, ?_, ?_, ?_⟩
  · intro rows
    rw [lint_tts_manifest_eq]
    by_cases hc : (rows.map (fun r => r.sample_rate)).dedup.length > 1 <;>
      simp [hc, List.flatMap_eq_nil_iff, List.all_eq_true, List.isEmpty_iff]
  · intro cd afs rows
    simp [validate_audio_dataset, vaGo_eq, ValidationReport.init, List.isEmpty_iff]
  · intro lines
    simp [validate_text_jsonl, vtGo_eq, ValidationReport.init, List.isEmpty_iff]
  · intro lines rep heq
    exact validate_scores_go_inv lines 1 ValidationReport.init rep (by simp [ValidationReport.init]) heq

theorem reports_ok_iff_no_issues_witness :
    validate_scores_json nullClarityLines = Except.ok nullClarityReport ∧
    (nullClarityReport.ok = true ↔ nullClarityReport.errors = []) :=
  ⟨rfl, reports_ok_iff_no_issues.2.2.2 nullClarityLines nullClarityReport rfl⟩

/-- C4: the scores validator is not exception-free.  On a structurally
parseable line whose clarity value is a JSON array, the unguarded
float(v) raises TypeError out of validate_scores_json instead of
recording a SCORE_RANGE issue in the report. -/
theorem validate_scores_raises_on_non_numeric_value :
    validate_scores_json badScoreLines
      = Except.error
          (PyErr.typeError "float() argument must be a string or a real number, not list") := by
  rfl

/-- C1: when the lint report is not ok, build_tts_snapshot raises
SystemExit with every collected issue formatted into the message, and
the store is left exactly as it was — no output file is written.  The
builder writes only after the lint passes. -/
theorem build_aborts_on_failed_lint (fs : FS) (rows : List ManifestRow) (up : Bool)
    (h : (lint_tts_manifest rows).ok = false) :
    build_tts_snapshot fs rows up
      = (fs, Except.error (PyErr.systemExit
          ("Dataset lints failed:\n" ++
            String.intercalate "\n" ((lint_tts_manifest rows).issues.map fmtLintIssue)))) := by
  unfold build_tts_snapshot
  simp [h]
  rfl

theorem build_aborts_on_failed_lint_witness :
    (lint_tts_manifest badDurationRows).ok = false ∧
    build_tts_snapshot emptyFS badDurationRows false
      = (emptyFS, Except.error (PyErr.systemExit
          ("Dataset lints failed:\n" ++
            String.intercalate "\n" ((lint_tts_manifest badDurationRows).issues.map fmtLintIssue)))) :=
  ⟨by decide, build_aborts_on_failed_lint emptyFS badDurationRows false (by decide)⟩

/-! Lemmas about the snapshot builder as a store transformer. -/

theorem applyWrites_apply (ws : List (String × FileData)) (fs : FS) (n : String) :
    applyWrites ws fs n =
      match lastVal ws n with
      | some d => some d
      | none => fs n := by
  induction ws generalizing fs with
  | nil => simp [applyWrites, lastVal]
  | cons w ws ih =>
    show applyWrites ws (fs.write w.1 w.2) n = _
    rw [ih]
    cases hl : lastVal ws n with
    | some d => simp [lastVal, hl]
    | none =>
      simp only [lastVal, hl]
      by_cases h : w.1 = n
      · subst h
        simp [FS.write]
      · have h2 : ¬(n = w.1) := fun hh => h hh.symm
        simp [FS.write, h, h2]

theorem applyWrites_idem (ws : List (String × FileData)) (fs : FS) :
    applyWrites ws (applyWrites ws fs) = applyWrites ws fs := by
  funext n
  rw [applyWrites_apply]
  cases hl : lastVal ws n with
  | some d => rw [applyWrites_apply, hl]
  | none => rfl

theorem build_tts_snapshot_eq (fs : FS) (rows : List ManifestRow) (up : Bool) :
    build_tts_snapshot fs rows up
      = (applyWrites (buildWrites rows up) fs, buildOutcome rows up) := by
  unfold build_tts_snapshot buildWrites buildOutcome write_manifest_jsonl build_metadata_csv write_dataset_card
  by_cases h : (lint_tts_manifest rows).ok = true
  · cases hm : (buildMetadataContent up rows "").2 with
    | some e => simp [h, hm, applyWrites, fmtLintIssue]
    | none =>
      cases hs : statsOf rows with
      | error e => simp [h, hm, hs, applyWrites]
      | ok st => simp [h, hm, hs, applyWrites]
  · have h2 : (lint_tts_manifest rows).ok = false := by
      cases hv : (lint_tts_manifest rows).ok
      · rfl
      · exact absurd hv h
    simp [h2]
    exact ⟨rfl, rfl⟩

/-- C7: the snapshot builder is idempotent.  A second run on the store
the first run produced leaves the store and outcome unchanged, and on a
successful run the three artifacts are present in the store with content
that is a function of the rows and the use_phonemes flag alone — so the
rerun overwrites each of them, the dataset card included, with identical
content. -/
theorem build_tts_snapshot_idempotent (rows : List ManifestRow) (up : Bool) (fs : FS) :
    (build_tts_snapshot (build_tts_snapshot fs rows up).1 rows up).1
       = (build_tts_snapshot fs rows up).1 ∧
    (build_tts_snapshot (build_tts_snapshot fs rows up).1 rows up).2
       = (build_tts_snapshot fs rows up).2 ∧
    (∀ out, (build_tts_snapshot fs rows up).2 = Except.ok out →
      ∃ st, statsOf rows = Except.ok st ∧
        (build_tts_snapshot fs rows up).1 "dataset_card.json" = some (FileData.cardFile st) ∧
        (build_tts_snapshot fs rows up).1 "metadata.csv"
          = some (FileData.textFile (buildMetadataContent up rows "").1) ∧
        (build_tts_snapshot fs rows up).1 "manifest.jsonl"
          = some (FileData.jsonlFile rows)) := by
  refine ⟨?_, ?_, ?_⟩
  · simp [build_tts_snapshot_eq, applyWrites_idem]
  · simp [build_tts_snapshot_eq]
  · intro out h
    rw [build_tts_snapshot_eq] at h
    simp only at h
    rw [build_tts_snapshot_eq]
    simp only
    unfold buildOutcome at h
    by_cases hok : (!(lint_tts_manifest rows).ok) = true
    · rw [if_pos hok] at h
      cases h
    · rw [if_neg hok] at h
      split at h
      · cases h
      · rename_i hm
        split at h
        · cases h
        · rename_i st hs
          have hok2 : (!(lint_tts_manifest rows).ok) = false := by
            cases hv : (!(lint_tts_manifest rows).ok)
            · rfl
            · exact absurd hv hok
          refine ⟨st, hs, ?_, ?_, ?_⟩ <;>
            · unfold buildWrites
              simp [hok2, hm, hs, applyWrites, FS.write]

theorem build_tts_snapshot_idempotent_witness :
    (build_tts_snapshot emptyFS exampleManifestRows false).2
        = Except.ok { manifest := "manifest.jsonl", metadata_csv := "metadata.csv",
                      dataset_card := "dataset_card.json" } ∧
    (∃ st, statsOf exampleManifestRows = Except.ok st ∧
      (build_tts_snapshot emptyFS exampleManifestRows false).1 "dataset_card.json"
        = some (FileData.cardFile st) ∧
      (build_tts_snapshot emptyFS exampleManifestRows false).1 "metadata.csv"
        = some (FileData.textFile (buildMetadataContent false exampleManifestRows "").1) ∧
      (build_tts_snapshot emptyFS exampleManifestRows false).1 "manifest.jsonl"
        = some (FileData.jsonlFile exampleManifestRows)) :=
  ⟨rfl, (build_tts_snapshot_idempotent exampleManifestRows false emptyFS).2.2 _ rfl⟩

/-- C9: a passing lint does not guarantee a successful build.  A row list
with valid durations and text but no "wav" key lints ok=True yet the
build raises KeyError("wav") after manifest.jsonl is already written; a
row list lacking "sample_rate" lints ok=True (the distinct set is the
singleton set of None) yet the build raises KeyError("sample_rate")
after both manifest.jsonl and metadata.csv are written. -/
theorem lint_pass_does_not_guarantee_build_success :
    (lint_tts_manifest rowsNoWav).ok = true ∧
    (build_tts_snapshot emptyFS rowsNoWav false).2 = Except.error (PyErr.keyError "wav") ∧
    (build_tts_snapshot emptyFS rowsNoWav false).1 "manifest.jsonl"
      = some (FileData.jsonlFile rowsNoWav) ∧
    (lint_tts_manifest rowsNoSampleRate).ok = true ∧
    (build_tts_snapshot emptyFS rowsNoSampleRate false).2
      = Except.error (PyErr.keyError "sample_rate") ∧
    (build_tts_snapshot emptyFS rowsNoSampleRate false).1 "manifest.jsonl"
      = some (FileData.jsonlFile rowsNoSampleRate) ∧
    (build_tts_snapshot emptyFS rowsNoSampleRate false).1 "metadata.csv"
      = some (FileData.textFile "clips/a.wav|hi|spk_unknown\r\n") :=
  ⟨by decide, rfl, rfl, by decide, rfl, rfl, rfl⟩

/-- C10: the empty manifest lints clean (no sample-rate issue fires for
cardinality 0), and the build succeeds, writing a dataset card with
clips = 0, an empty sample-rate list and minutes = 0. -/
theorem lint_and_build_on_empty_manifest :
    (lint_tts_manifest []).ok = true ∧
    (lint_tts_manifest []).issues = [] ∧
    (build_tts_snapshot emptyFS [] false).2
      = Except.ok { manifest := "manifest.jsonl", metadata_csv := "metadata.csv",
                    dataset_card := "dataset_card.json" } ∧
    (build_tts_snapshot emptyFS [] false).1 "dataset_card.json"
      = some (FileData.cardFile { clips := 0, sample_rate := [], minutes := 0 }) := by
  refine ⟨by rfl, by rfl, by rfl, ?_⟩
  have hst : statsOf ([] : List ManifestRow)
      = Except.ok { clips := 0, sample_rate := [], minutes := 0 } := by
    have h1 : statsOf ([] : List ManifestRow)
        = Except.ok { clips := 0, sample_rate := [], minutes := (0 : ℚ) / 60 } := rfl
    rw [h1, show ((0 : ℚ) / 60) = 0 from by simp]
  rw [build_tts_snapshot_eq]
  simp only
  unfold buildWrites
  have hl : (!(lint_tts_manifest ([] : List ManifestRow)).ok) = false := rfl
  have hm : (buildMetadataContent false ([] : List ManifestRow) "").2 = none := rfl
  simp [hl, hm, hst, applyWrites, FS.write]

/-! Lemmas about the semver regex matcher. -/

theorem takeDigs_digits (l : List Char) : ∀ c ∈ (takeDigs l).1, c.isDigit = true := by
  induction l with
  | nil => intro c hc; simp [takeDigs] at hc
  | cons a as ih =>
    intro c hc
    by_cases h : a.isDigit = true
    · simp only [takeDigs, h, if_true] at hc
      rcases List.mem_cons.mp hc with rfl | hc
      · exact h
      · exact ih c hc
    · simp only [takeDigs, h, if_false] at hc
      simp at hc

theorem takeDigs_append (l : List Char) : (takeDigs l).1 ++ (takeDigs l).2 = l := by
  induction l with
  | nil => rfl
  | cons a as ih =>
    by_cases h : a.isDigit = true
    · simp only [takeDigs, h, if_true, List.cons_append]
      rw [ih]
    · simp [takeDigs, h]

theorem takeDigs_digits_then_rest (a rest : List Char)
    (ha : ∀ c ∈ a, c.isDigit = true)
    (hr : ∀ c cs, rest = c :: cs → c.isDigit = false) :
    takeDigs (a ++ rest) = (a, rest) := by
  induction a with
  | nil =>
    simp only [List.nil_append]
    cases rest with
    | nil => rfl
    | cons c cs =>
      have hc := hr c cs rfl
      simp [takeDigs, hc]
  | cons x xs ih =>
    have hx : x.isDigit = true := ha x (List.mem_cons_self x xs)
    have ih2 := ih (fun c hc => ha c (List.mem_cons_of_mem _ hc))
    simp [takeDigs, hx, ih2]

theorem isEmpty_false_of_ne {α : Type} (l : List α) (h : l ≠ []) : l.isEmpty = false := by
  cases l
  · exact absurd rfl h
  · rfl

theorem semverMatch_iff (s : String) :
    semverMatch s = true ↔ (SemverFormat s ∨ SemverFormatNewline s) := by
  constructor
  · intro h
    unfold semverMatch at h
    split at h
    · rename_i a r1 heq1
      split at h
      · rename_i b r2 heq2
        split at h
        · rename_i c heq3
          rw [Bool.and_eq_true, Bool.and_eq_true] at h
          obtain ⟨⟨hae, hbe⟩, hce⟩ := h
          rw [Bool.not_eq_true'] at hae hbe hce
          left
          refine ⟨a, b, c, ⟨?_, ?_⟩, ⟨?_, ?_⟩, ⟨?_, ?_⟩, ?_⟩
          · exact fun hn => by rw [hn] at hae; exact absurd hae (by decide)
          · intro ch hch
            have := takeDigs_digits s.data ch
            rw [heq1] at this
            exact this hch
          · exact fun hn => by rw [hn] at hbe; exact absurd hbe (by decide)
          · intro ch hch
            have := takeDigs_digits r1 ch
            rw [heq2] at this
            exact this hch
          · exact fun hn => by rw [hn] at hce; exact absurd hce (by decide)
          · intro ch hch
            have := takeDigs_digits r2 ch
            rw [heq3] at this
            exact this hch
          · have e1 := takeDigs_append s.data
            rw [heq1] at e1
            have e2 := takeDigs_append r1
            rw [heq2] at e2
            have e3 := takeDigs_append r2
            rw [heq3] at e3
            simp only [List.append_nil] at e3
            rw [← e1, ← e2, ← e3]
        · rename_i c heq3
          rw [Bool.and_eq_true, Bool.and_eq_true] at h
          obtain ⟨⟨hae, hbe⟩, hce⟩ := h
          rw [Bool.not_eq_true'] at hae hbe hce
          right
          refine ⟨a, b, c, ⟨?_, ?_⟩, ⟨?_, ?_⟩, ⟨?_, ?_⟩, ?_⟩
          · exact fun hn => by rw [hn] at hae; exact absurd hae (by decide)
          · intro ch hch
            have := takeDigs_digits s.data ch
            rw [heq1] at this
            exact this hch
          · exact fun hn => by rw [hn] at hbe; exact absurd hbe (by decide)
          · intro ch hch
            have := takeDigs_digits r1 ch
            rw [heq2] at this
            exact this hch
          · exact fun hn => by rw [hn] at hce; exact absurd hce (by decide)
          · intro ch hch
            have := takeDigs_digits r2 ch
            rw [heq3] at this
            exact this hch
          · have e1 := takeDigs_append s.data
            rw [heq1] at e1
            have e2 := takeDigs_append r1
            rw [heq2] at e2
            have e3 := takeDigs_append r2
            rw [heq3] at e3
            rw [← e1, ← e2, ← e3]
        · cases h
      · cases h
    · cases h
  · intro h
    have hdot : ('.' : Char).isDigit = false := by decide
    have hnl : ('\n' : Char).isDigit = false := by decide
    rcases h with ⟨a, b, c, da, db, dc, hs⟩ | ⟨a, b, c, da, db, dc, hs⟩
    · unfold semverMatch
      rw [hs]
      rw [takeDigs_digits_then_rest a ('.' :: (b ++ '.' :: c)) da.2
            (fun ch cs hcc => by cases hcc; exact hdot)]
      simp only
      rw [takeDigs_digits_then_rest b ('.' :: c) db.2
            (fun ch cs hcc => by cases hcc; exact hdot)]
      simp only
      rw [show c = c ++ [] from (List.append_nil c).symm,
          takeDigs_digits_then_rest c [] (fun ch hch => dc.2 ch (by simpa using hch))
            (fun ch cs hcc => by cases hcc)]
      simp [isEmpty_false_of_ne _ da.1, isEmpty_false_of_ne _ db.1, isEmpty_false_of_ne _ dc.1]
    · unfold semverMatch
      rw [hs]
      rw [takeDigs_digits_then_rest a ('.' :: (b ++ '.' :: (c ++ ['\n']))) da.2
            (fun ch cs hcc => by cases hcc; exact hdot)]
      simp only
      rw [takeDigs_digits_then_rest b ('.' :: (c ++ ['\n'])) db.2
            (fun ch cs hcc => by cases hcc; exact hdot)]
      simp only
      rw [takeDigs_digits_then_rest c ['\n'] dc.2
            (fun ch cs hcc => by cases hcc; exact hnl)]
      simp [isEmpty_false_of_ne _ da.1, isEmpty_false_of_ne _ db.1, isEmpty_false_of_ne _ dc.1]

/-- C8 counterexample: the version string with a trailing newline is not
in the semantic-version format, yet the profile validator accepts it —
Python re anchors $ before a trailing newline, so the claimed "only if
the version matches the semantic-version format" fails. -/
theorem profile_semver_trailing_newline_accepted :
    validateLanguageProfileV1 newlineVersionProfile = Except.ok newlineVersionProfile ∧
    ¬ SemverFormat "1.2.3\n" := by
  constructor
  · unfold validateLanguageProfileV1
    have h1 : semverMatch newlineVersionProfile.version = true := by rfl
    have hsum : sumWeights newlineVersionProfile.register_defaults
        = (0 + mkRat 3 10) + mkRat 7 10 := rfl
    have h2 : |sumWeights newlineVersionProfile.register_defaults - 1| < mkRat 1 1000000 := by
      rw [hsum]
      norm_num [Rat.mkRat_eq_div]
    have h3 : newlineVersionProfile.dialect ∉ newlineVersionProfile.fallback_chain := by
      decide
    simp [h1, h2, h3]
  · rintro ⟨a, b, c, da, db, dc, hs⟩
    have hmem : '\n' ∈ ("1.2.3\n" : String).data := by decide
    rw [hs] at hmem
    simp only [List.mem_append, List.mem_cons] at hmem
    rcases hmem with h | h | h | h | h
    · exact absurd (da.2 _ h) (by decide)
    · exact absurd h (by decide)
    · exact absurd (db.2 _ h) (by decide)
    · exact absurd h (by decide)
    · exact absurd (dc.2 _ h) (by decide)

/-- C8 (amended): the profile validator accepts exactly the profiles
whose version matches the regex in its Python semantics — the
semantic-version shape optionally followed by one trailing newline —
whose register weights sum to 1.0 within strict tolerance 1e-6, and
whose own dialect does not appear in its fallback chain; violating any
one of the three makes validation fail. -/
theorem profile_validation_characterization (p : LanguageProfileV1) :
    validateLanguageProfileV1 p = Except.ok p ↔
      ((SemverFormat p.version ∨ SemverFormatNewline p.version) ∧
       |sumWeights p.register_defaults - 1| < (1 / 1000000 : ℚ) ∧
       p.dialect ∉ p.fallback_chain) := by
  have hbr : (1 / 1000000 : ℚ) = mkRat 1 1000000 := by
    norm_num [Rat.mkRat_eq_div]
  rw [hbr, show (SemverFormat p.version ∨ SemverFormatNewline p.version)
        ↔ semverMatch p.version = true from (semverMatch_iff _).symm]
  unfold validateLanguageProfileV1
  by_cases h1 : semverMatch p.version = true
  · by_cases h2 : |sumWeights p.register_defaults - 1| < mkRat 1 1000000
    · by_cases h3 : p.dialect ∈ p.fallback_chain
      · simp [h1, h2, h3]
      · simp [h1, h2, h3]
    · simp [h1, h2]
  · have h1f : semverMatch p.version = false := by
      cases hv : semverMatch p.version
      · rfl
      · exact absurd hv h1
    simp [h1f]
